import Mathlib

/-!
Verification of the push-button start controller (push_start).

The definitions below are a shallow embedding of the Arduino sketch
(v2.0 NFC variant, with the v1.0 sketch agreeing on the shared logic):
the run-state enum, the relay and LED output drivers, and the body of
the main control loop, modelled as a pure step function from a machine
state and one cycle's sampled inputs to the next machine state plus the
observable outputs of that cycle (relay writes, warning, settle delay).
-/

namespace PushStart

/-- The sysState enum of the sketch. -/
inductive SysState
  | DISABLED
  | OFF
  | ACC
  | START
  | RUN
deriving DecidableEq, Repr

/-- Energization of the three relays (true = energized/ON).  In the
sketch an energized relay is a digitalWrite of RELAY_ON to the pin. -/
structure RelayPattern where
  acc : Bool
  ign : Bool
  start : Bool
deriving DecidableEq, Repr

/-- The setRelayState switch: the relay pattern written for each run
state.  DISABLED/OFF: all deenergized; ACC: ACC only; START: IGN and
START; RUN: IGN only. -/
def setRelayState : SysState → RelayPattern
  | .DISABLED => ⟨false, false, false⟩
  | .OFF      => ⟨false, false, false⟩
  | .ACC      => ⟨true,  false, false⟩
  | .START    => ⟨false, true,  true⟩
  | .RUN      => ⟨false, true,  false⟩

/-- FLASH_DELAY constant: ticks between LED toggles in ACC. -/
def FLASH_DELAY : Nat := 10

/-- HOLD_MS constant: milliseconds separating a tap from a hold. -/
def HOLD_MS : Nat := 1000

/-- Modulus of the 16-bit unsigned int holding the tick counter. -/
def UINT_MOD : Nat := 65536

/-- Modulus of the 32-bit unsigned long returned by millis(). -/
def ULONG_MOD : Nat := 4294967296

/-- LED animation sub-state: the brightness, fadeAmount and tick globals. -/
structure LedState where
  brightness : Int
  fadeAmount : Int
  tick : Nat
deriving DecidableEq, Repr

/-- The setLedBrigtness routine of the sketch (name kept as in the
source), acting on the animation globals for a given run state. -/
def setLedBrigtness (rs : SysState) (l : LedState) : LedState :=
  match rs with
  | .DISABLED =>
      { l with brightness := 0 }
  | .OFF =>
      let b0 := l.brightness + l.fadeAmount
      let b1 := if b0 + l.fadeAmount > 255 then 255
                else if b0 + l.fadeAmount < 0 then 0
                else b0
      let f1 := if b1 ≤ 0 ∨ b1 ≥ 255 then -l.fadeAmount else l.fadeAmount
      { brightness := b1, fadeAmount := f1, tick := l.tick }
  | .ACC =>
      let b1 := if l.tick % FLASH_DELAY = 0 then
                  (if l.brightness > 0 then 0 else 255)
                else l.brightness
      { brightness := b1, fadeAmount := l.fadeAmount,
        tick := (l.tick + 1) % UINT_MOD }
  | .START =>
      { l with brightness := if l.brightness > 0 then 0 else 255 }
  | .RUN =>
      { l with brightness := 255 }

/-- The persistent globals of the sketch together with the relay pin
levels (the record of the last pattern written to the relay outputs). -/
structure MachState where
  runState : SysState
  previousButtonState : Bool
  pressTime : Nat
  led : LedState
  relays : RelayPattern
deriving DecidableEq, Repr

/-- One control cycle's sampled inputs: the enablement gate result, the
button level (true = pressed), the derived safe-to-start boolean, and
the millis() value at the sample. -/
structure CycleInput where
  enabled : Bool
  buttonPressed : Bool
  safeToStart : Bool
  now : Nat
deriving DecidableEq, Repr

/-- Observable effects of one cycle: the relay patterns written (in
order), whether the unsafe-to-start warning was printed, and the
mid-cycle settle delay taken between relay writes (ms). -/
structure CycleOutput where
  relayWrites : List RelayPattern
  warned : Bool
  settleDelayMs : Nat
deriving DecidableEq, Repr

/-- The unsigned-long computation millis() - pressTime of the sketch,
i.e. subtraction modulo 2^32. -/
def elapsedSincePress (now press : Nat) : Nat :=
  (now % ULONG_MOD + (ULONG_MOD - press % ULONG_MOD)) % ULONG_MOD

/-- The guard millis() - pressTime > HOLD_MS of the sketch. -/
def heldOverThreshold (now press : Nat) : Bool :=
  decide (HOLD_MS < elapsedSincePress now press)

/-- Run state the loop body works with after the enabled branch's
forced DISABLED-to-OFF move at the top of the cycle. -/
def effectiveState (s : MachState) : SysState :=
  if s.runState = .DISABLED then .OFF else s.runState

/-- The released-edge switch of the loop: given the current run state
and the held-over-threshold test, returns the new run state, the relay
writes issued inside the switch, and the delay taken inside it.  Only
the RUN case writes inside the switch: it first sets run state OFF,
and when held over threshold drives the OFF pattern, waits 500 ms and
moves to ACC. -/
def releasedSwitch (rs : SysState) (heldOver : Bool) :
    SysState × List RelayPattern × Nat :=
  match rs with
  | .DISABLED => (.OFF, [], 0)
  | .OFF      => (.ACC, [], 0)
  | .ACC      => (.OFF, [], 0)
  | .START    => (.RUN, [], 0)
  | .RUN      =>
      if heldOver then (.ACC, [setRelayState .OFF], 500)
      else (.OFF, [], 0)

/-- One iteration of the loop() body of the sketch, as a pure function
from the previous machine state and this cycle's inputs to the next
machine state and this cycle's observable outputs. -/
def loopStep (s : MachState) (inp : CycleInput) : MachState × CycleOutput :=
  if inp.enabled then
    let rs0 := effectiveState s
    if inp.buttonPressed ≠ s.previousButtonState then
      if inp.buttonPressed = false then
        -- Released edge: run the transition switch then setRelayState.
        let res := releasedSwitch rs0 (heldOverThreshold inp.now s.pressTime)
        ({ runState := res.1,
           previousButtonState := inp.buttonPressed,
           pressTime := s.pressTime,
           led := setLedBrigtness res.1 s.led,
           relays := setRelayState res.1 },
         { relayWrites := res.2.1 ++ [setRelayState res.1],
           warned := false,
           settleDelayMs := res.2.2 })
      else
        -- Pressed edge: record pressTime, no transition.
        ({ runState := rs0,
           previousButtonState := inp.buttonPressed,
           pressTime := inp.now % ULONG_MOD,
           led := setLedBrigtness rs0 s.led,
           relays := s.relays },
         { relayWrites := [], warned := false, settleDelayMs := 0 })
    else if inp.buttonPressed then
      -- Button held with no edge: the ACC special case.
      if rs0 = .ACC then
        if inp.safeToStart then
          if heldOverThreshold inp.now s.pressTime then
            ({ runState := .START,
               previousButtonState := inp.buttonPressed,
               pressTime := s.pressTime,
               led := setLedBrigtness .START s.led,
               relays := setRelayState .START },
             { relayWrites := [setRelayState .START],
               warned := false, settleDelayMs := 0 })
          else
            ({ runState := rs0,
               previousButtonState := inp.buttonPressed,
               pressTime := s.pressTime,
               led := setLedBrigtness rs0 s.led,
               relays := s.relays },
             { relayWrites := [], warned := false, settleDelayMs := 0 })
        else
          ({ runState := rs0,
             previousButtonState := inp.buttonPressed,
             pressTime := s.pressTime,
             led := setLedBrigtness rs0 s.led,
             relays := s.relays },
           { relayWrites := [], warned := true, settleDelayMs := 0 })
      else
        ({ runState := rs0,
           previousButtonState := inp.buttonPressed,
           pressTime := s.pressTime,
           led := setLedBrigtness rs0 s.led,
           relays := s.relays },
         { relayWrites := [], warned := false, settleDelayMs := 0 })
    else
      -- Button released with no edge: nothing but the prev-state store.
      ({ runState := rs0,
         previousButtonState := inp.buttonPressed,
         pressTime := s.pressTime,
         led := setLedBrigtness rs0 s.led,
         relays := s.relays },
       { relayWrites := [], warned := false, settleDelayMs := 0 })
  else
    -- Disabled branch: force DISABLED and drive relays every cycle.
    ({ runState := .DISABLED,
       previousButtonState := s.previousButtonState,
       pressTime := s.pressTime,
       led := setLedBrigtness .DISABLED s.led,
       relays := setRelayState .DISABLED },
     { relayWrites := [setRelayState .DISABLED],
       warned := false, settleDelayMs := 0 })

/-- Boot state of the sketch: runState DISABLED, previous button level
released, pressTime zero-initialized, brightness 0, fadeAmount 5,
tick 0, all relays driven deenergized by setup(). -/
def initState : MachState :=
  { runState := .DISABLED,
    previousButtonState := false,
    pressTime := 0,
    led := { brightness := 0, fadeAmount := 5, tick := 0 },
    relays := ⟨false, false, false⟩ }

/-- Iterated control cycles from a machine state over a list of inputs. -/
def runTrace (s : MachState) : List CycleInput → MachState
  | [] => s
  | i :: is => runTrace (loopStep s i).1 is

/-- The NFC_UIDS allow-list of the sketch.  Each row is declared as
byte[7] with six initializers, so a seventh zero byte is implicit. -/
def NFC_UIDS : List (List Nat) :=
  [[0x69, 0xAF, 0xEC, 0xC2, 0x00, 0x00, 0x00],
   [0x79, 0x5A, 0x13, 0xB1, 0x00, 0x00, 0x00]]

/-- The checkUid routine: compares the first uidLength bytes of the
known UID against the read buffer, true iff all match. -/
def checkUid (knownUid uid : List Nat) (uidLength : Nat) : Bool :=
  (List.range uidLength).all (fun i => knownUid.getD i 0 == uid.getD i 0)

/-- The systemEnabled routine of the NFC variant.  The uid argument is
the 7-byte read buffer after the bounded readPassiveTargetID attempt
(all zeros when no token was detected).  Outside DISABLED/OFF the gate
returns true without consulting the reader; otherwise it is true iff
some allow-list entry matches the buffer over sizeof(NFC_UIDS[i]) = 7
bytes. -/
def systemEnabled (rs : SysState) (uid : List Nat) : Bool :=
  if rs ≠ SysState.DISABLED ∧ rs ≠ SysState.OFF then true
  else NFC_UIDS.any (fun known => checkUid known uid 7)

/-- Iterated LED-brightness updates over an arbitrary run-state
sequence, one update per control cycle. -/
def ledTrace (l : LedState) : List SysState → LedState
  | [] => l
  | rs :: rest => ledTrace (setLedBrigtness rs l) rest

/-- Invariant of the LED animation globals: brightness within the
usable 0..255 range and fadeAmount at its two legal values. -/
def LedInv (l : LedState) : Prop :=
  0 ≤ l.brightness ∧ l.brightness ≤ 255 ∧
    (l.fadeAmount = 5 ∨ l.fadeAmount = -5)

/-- Variant of the released-edge switch whose DISABLED arm behaves
differently (stays DISABLED instead of moving to OFF).  Used to state
that the DISABLED arm of the switch is dead code: swapping it for any
other behavior leaves the whole loop body unchanged. -/
def releasedSwitchAlt (rs : SysState) (heldOver : Bool) :
    SysState × List RelayPattern × Nat :=
  match rs with
  | .DISABLED => (.DISABLED, [], 0)
  | .OFF      => (.ACC, [], 0)
  | .ACC      => (.OFF, [], 0)
  | .START    => (.RUN, [], 0)
  | .RUN      =>
      if heldOver then (.ACC, [setRelayState .OFF], 500)
      else (.OFF, [], 0)

/-- Loop body with releasedSwitchAlt in place of releasedSwitch,
otherwise identical to loopStep. -/
def loopStepAlt (s : MachState) (inp : CycleInput) : MachState × CycleOutput :=
  if inp.enabled then
    let rs0 := effectiveState s
    if inp.buttonPressed ≠ s.previousButtonState then
      if inp.buttonPressed = false then
        let res := releasedSwitchAlt rs0 (heldOverThreshold inp.now s.pressTime)
        ({ runState := res.1,
           previousButtonState := inp.buttonPressed,
           pressTime := s.pressTime,
           led := setLedBrigtness res.1 s.led,
           relays := setRelayState res.1 },
         { relayWrites := res.2.1 ++ [setRelayState res.1],
           warned := false,
           settleDelayMs := res.2.2 })
      else
        ({ runState := rs0,
           previousButtonState := inp.buttonPressed,
           pressTime := inp.now % ULONG_MOD,
           led := setLedBrigtness rs0 s.led,
           relays := s.relays },
         { relayWrites := [], warned := false, settleDelayMs := 0 })
    else if inp.buttonPressed then
      if rs0 = .ACC then
        if inp.safeToStart then
          if heldOverThreshold inp.now s.pressTime then
            ({ runState := .START,
               previousButtonState := inp.buttonPressed,
               pressTime := s.pressTime,
               led := setLedBrigtness .START s.led,
               relays := setRelayState .START },
             { relayWrites := [setRelayState .START],
               warned := false, settleDelayMs := 0 })
          else
            ({ runState := rs0,
               previousButtonState := inp.buttonPressed,
               pressTime := s.pressTime,
               led := setLedBrigtness rs0 s.led,
               relays := s.relays },
             { relayWrites := [], warned := false, settleDelayMs := 0 })
        else
          ({ runState := rs0,
             previousButtonState := inp.buttonPressed,
             pressTime := s.pressTime,
             led := setLedBrigtness rs0 s.led,
             relays := s.relays },
           { relayWrites := [], warned := true, settleDelayMs := 0 })
      else
        ({ runState := rs0,
           previousButtonState := inp.buttonPressed,
           pressTime := s.pressTime,
           led := setLedBrigtness rs0 s.led,
           relays := s.relays },
         { relayWrites := [], warned := false, settleDelayMs := 0 })
    else
      ({ runState := rs0,
         previousButtonState := inp.buttonPressed,
         pressTime := s.pressTime,
         led := setLedBrigtness rs0 s.led,
         relays := s.relays },
       { relayWrites := [], warned := false, settleDelayMs := 0 })
  else
    ({ runState := .DISABLED,
       previousButtonState := s.previousButtonState,
       pressTime := s.pressTime,
       led := setLedBrigtness .DISABLED s.led,
       relays := setRelayState .DISABLED },
     { relayWrites := [setRelayState .DISABLED],
       warned := false, settleDelayMs := 0 })

/-! Helper lemmas shared by the claims. -/

theorem loopStep_not_enabled (s : MachState) (i : CycleInput)
    (h : i.enabled = false) :
    loopStep s i =
      ({ runState := .DISABLED,
         previousButtonState := s.previousButtonState,
         pressTime := s.pressTime,
         led := setLedBrigtness .DISABLED s.led,
         relays := setRelayState .DISABLED },
       { relayWrites := [setRelayState .DISABLED],
         warned := false, settleDelayMs := 0 }) := by
  simp [loopStep, h]

theorem runTrace_append (s : MachState) (is : List CycleInput) (i : CycleInput) :
    runTrace s (is ++ [i]) = (loopStep (runTrace s is) i).1 := by
  induction is generalizing s with
  | nil => rfl
  | cons j js ih => simpa [runTrace] using ih (loopStep s j).1

/-- C1: in any cycle whose enablement sample is false, the cycle ends
with RunState = DISABLED and all three relays deenergized (the
all-off pattern is written this very cycle), whatever the prior state
and whatever button gesture was in progress. -/
theorem claim1_disable_forces_shutdown (s : MachState) (i : CycleInput)
    (h : i.enabled = false) :
    (loopStep s i).1.runState = SysState.DISABLED ∧
    (loopStep s i).1.relays = RelayPattern.mk false false false ∧
    (loopStep s i).2.relayWrites = [RelayPattern.mk false false false] := by
  rw [loopStep_not_enabled s i h]
  exact ⟨rfl, rfl, rfl⟩

/-- Witness for C1 at a concrete mid-crank state. -/
theorem claim1_witness :
    (loopStep
      { runState := .START, previousButtonState := true, pressTime := 0,
        led := { brightness := 255, fadeAmount := 5, tick := 0 },
        relays := setRelayState .START }
      { enabled := false, buttonPressed := true, safeToStart := true,
        now := 1500 }).1.runState = SysState.DISABLED ∧
    (loopStep
      { runState := .START, previousButtonState := true, pressTime := 0,
        led := { brightness := 255, fadeAmount := 5, tick := 0 },
        relays := setRelayState .START }
      { enabled := false, buttonPressed := true, safeToStart := true,
        now := 1500 }).1.relays = RelayPattern.mk false false false ∧
    (loopStep
      { runState := .START, previousButtonState := true, pressTime := 0,
        led := { brightness := 255, fadeAmount := 5, tick := 0 },
        relays := setRelayState .START }
      { enabled := false, buttonPressed := true, safeToStart := true,
        now := 1500 }).2.relayWrites = [RelayPattern.mk false false false] :=
  claim1_disable_forces_shutdown _ _ rfl

/-- C2: over any input trace from the boot state, if a cycle ends with
RunState among ACC, START, RUN then the enablement sample of that very
cycle was true. -/
theorem claim2_active_state_implies_enabled
    (is : List CycleInput) (i : CycleInput)
    (h : (runTrace initState (is ++ [i])).runState = SysState.ACC ∨
         (runTrace initState (is ++ [i])).runState = SysState.START ∨
         (runTrace initState (is ++ [i])).runState = SysState.RUN) :
    i.enabled = true := by
  cases he : i.enabled with
  | true => rfl
  | false =>
    rw [runTrace_append, loopStep_not_enabled _ _ he] at h
    rcases h with h | h | h <;> exact absurd h (by simp)

/-- Witness for C2: a two-cycle trace (press, then release) that ends
in ACC, whose last cycle indeed sampled enabled = true. -/
theorem claim2_witness :
    CycleInput.enabled ⟨true, false, true, 10⟩ = true :=
  claim2_active_state_implies_enabled
    [⟨true, true, true, 0⟩] ⟨true, false, true, 10⟩ (by decide)

theorem relays_coupled_step (s : MachState) (i : CycleInput)
    (h : s.relays = setRelayState s.runState) :
    (loopStep s i).1.relays = setRelayState (loopStep s i).1.runState := by
  obtain ⟨rs, pb, pt, led, rel⟩ := s
  cases rs <;>
    cases hb : i.buttonPressed <;> cases pb <;>
      simp_all [loopStep, effectiveState, releasedSwitch, setRelayState] <;>
        split_ifs <;> simp [setRelayState]

theorem relays_coupled_trace (is : List CycleInput) (s : MachState)
    (h : s.relays = setRelayState s.runState) :
    (runTrace s is).relays = setRelayState (runTrace s is).runState := by
  induction is generalizing s with
  | nil => exact h
  | cons j js ih => exact ih (loopStep s j).1 (relays_coupled_step s j h)

/-- C3: the relay mapping is the stated pure function of RunState
(DISABLED/OFF all off, ACC only ACC, START exactly IGN+START, RUN only
IGN), and at every cycle boundary of every trace from boot the relay
pin levels equal that function of the current RunState (the transient
OFF pattern of a RUN-to-ACC cycle never persists across a boundary). -/
theorem claim3_relay_mapping_invariant :
    setRelayState .DISABLED = RelayPattern.mk false false false ∧
    setRelayState .OFF = RelayPattern.mk false false false ∧
    setRelayState .ACC = RelayPattern.mk true false false ∧
    setRelayState .START = RelayPattern.mk false true true ∧
    setRelayState .RUN = RelayPattern.mk false true false ∧
    ∀ is : List CycleInput,
      (runTrace initState is).relays =
        setRelayState (runTrace initState is).runState :=
  ⟨rfl, rfl, rfl, rfl, rfl, fun is => relays_coupled_trace is initState rfl⟩

/-- C4: from ACC in an enabled cycle, the machine ends the cycle in
START exactly when the button level is Pressed with no edge (previous
sample also Pressed), the time since the captured press exceeds
HOLD_MS, and safeToStart reads true; the test is level-triggered every
such cycle. -/
theorem claim4_acc_to_start_iff (s : MachState) (i : CycleInput)
    (hA : s.runState = SysState.ACC) (hE : i.enabled = true) :
    (loopStep s i).1.runState = SysState.START ↔
      (i.buttonPressed = true ∧ s.previousButtonState = true ∧
       heldOverThreshold i.now s.pressTime = true ∧
       i.safeToStart = true) := by
  obtain ⟨rs, pb, pt, led, rel⟩ := s
  obtain ⟨en, bp, safe, now⟩ := i
  dsimp at hA hE ⊢
  subst hA; subst hE
  cases bp <;> cases pb <;> cases safe <;>
    simp [loopStep, effectiveState, releasedSwitch] <;>
      split_ifs <;> simp_all

/-- Witness for C4: a held press 2000 ms after the captured press with
safeToStart true moves ACC to START. -/
theorem claim4_witness :
    (loopStep
      { runState := .ACC, previousButtonState := true, pressTime := 0,
        led := { brightness := 0, fadeAmount := 5, tick := 3 },
        relays := setRelayState .ACC }
      { enabled := true, buttonPressed := true, safeToStart := true,
        now := 2000 }).1.runState = SysState.START :=
  (claim4_acc_to_start_iff _ _ rfl rfl).mpr ⟨rfl, rfl, by decide, rfl⟩

/-- C5 counterexample: in ACC with the button held (no edge) and
safeToStart false, the warning is printed even though the press is
only 500 ms old, i.e. the button has NOT been held past HOLD_MS, so
the claimed equivalence (warning iff held past threshold and unsafe)
fails in its only-if direction. -/
theorem claim5_counterexample :
    (loopStep
      { runState := .ACC, previousButtonState := true, pressTime := 0,
        led := { brightness := 0, fadeAmount := 5, tick := 0 },
        relays := setRelayState .ACC }
      { enabled := true, buttonPressed := true, safeToStart := false,
        now := 500 }).2.warned = true ∧
    heldOverThreshold 500 0 = false ∧
    (loopStep
      { runState := .ACC, previousButtonState := true, pressTime := 0,
        led := { brightness := 0, fadeAmount := 5, tick := 0 },
        relays := setRelayState .ACC }
      { enabled := true, buttonPressed := true, safeToStart := false,
        now := 500 }).1.runState = SysState.ACC := by
  exact ⟨rfl, by decide, rfl⟩

/-- C5 amended: the warning is reported in a cycle exactly when the
cycle is enabled, the machine is in ACC, the button level is Pressed
with no edge, and safeToStart is false — the hold duration is not
consulted; on every warned cycle the transition is silently absorbed:
RunState stays ACC, no relay write is issued and the relay outputs
are unchanged. -/
theorem claim5_warning_iff_unsafe_held (s : MachState) (i : CycleInput) :
    ((loopStep s i).2.warned = true ↔
      (i.enabled = true ∧ s.runState = SysState.ACC ∧
       i.buttonPressed = true ∧ s.previousButtonState = true ∧
       i.safeToStart = false)) ∧
    ((loopStep s i).2.warned = true →
      (loopStep s i).1.runState = SysState.ACC ∧
      (loopStep s i).2.relayWrites = [] ∧
      (loopStep s i).1.relays = s.relays) := by
  obtain ⟨rs, pb, pt, led, rel⟩ := s
  obtain ⟨en, bp, safe, now⟩ := i
  cases en <;> cases bp <;> cases pb <;> cases safe <;> cases rs <;>
    simp [loopStep, effectiveState, releasedSwitch] <;>
      split_ifs <;> simp_all

/-- Witness for C5's amended theorem at a concrete warned cycle. -/
theorem claim5_witness :
    ((loopStep
      { runState := .ACC, previousButtonState := true, pressTime := 0,
        led := { brightness := 255, fadeAmount := 5, tick := 1 },
        relays := setRelayState .ACC }
      { enabled := true, buttonPressed := true, safeToStart := false,
        now := 5000 }).2.warned = true ↔
      ((true : Bool) = true ∧ SysState.ACC = SysState.ACC ∧
       (true : Bool) = true ∧ (true : Bool) = true ∧
       (false : Bool) = false)) ∧
    ((loopStep
      { runState := .ACC, previousButtonState := true, pressTime := 0,
        led := { brightness := 255, fadeAmount := 5, tick := 1 },
        relays := setRelayState .ACC }
      { enabled := true, buttonPressed := true, safeToStart := false,
        now := 5000 }).2.warned = true →
      (loopStep
        { runState := .ACC, previousButtonState := true, pressTime := 0,
          led := { brightness := 255, fadeAmount := 5, tick := 1 },
          relays := setRelayState .ACC }
        { enabled := true, buttonPressed := true, safeToStart := false,
          now := 5000 }).1.runState = SysState.ACC ∧
      (loopStep
        { runState := .ACC, previousButtonState := true, pressTime := 0,
          led := { brightness := 255, fadeAmount := 5, tick := 1 },
          relays := setRelayState .ACC }
        { enabled := true, buttonPressed := true, safeToStart := false,
          now := 5000 }).2.relayWrites = [] ∧
      (loopStep
        { runState := .ACC, previousButtonState := true, pressTime := 0,
          led := { brightness := 255, fadeAmount := 5, tick := 1 },
          relays := setRelayState .ACC }
        { enabled := true, buttonPressed := true, safeToStart := false,
          now := 5000 }).1.relays =
        MachState.relays
          { runState := .ACC, previousButtonState := true, pressTime := 0,
            led := { brightness := 255, fadeAmount := 5, tick := 1 },
            relays := setRelayState .ACC }) :=
  claim5_warning_iff_unsafe_held _ _

/-- C6: from RUN in an enabled cycle, a Released edge goes to OFF with
a single all-off relay write when the press is at most HOLD_MS old,
and goes to ACC when older than HOLD_MS — via a transient OFF: the
all-off pattern is written first, a 500 ms settle delay elapses inside
the cycle, then the state becomes ACC and the ACC pattern is written. -/
theorem claim6_run_release_tap_or_hold (s : MachState) (i : CycleInput)
    (hR : s.runState = SysState.RUN) (hE : i.enabled = true)
    (hB : i.buttonPressed = false) (hP : s.previousButtonState = true) :
    (heldOverThreshold i.now s.pressTime = false →
       (loopStep s i).1.runState = SysState.OFF ∧
       (loopStep s i).2.relayWrites = [setRelayState .OFF] ∧
       (loopStep s i).2.settleDelayMs = 0) ∧
    (heldOverThreshold i.now s.pressTime = true →
       (loopStep s i).1.runState = SysState.ACC ∧
       (loopStep s i).2.relayWrites =
         [setRelayState .OFF, setRelayState .ACC] ∧
       (loopStep s i).2.settleDelayMs = 500 ∧
       (loopStep s i).1.relays = setRelayState .ACC) := by
  obtain ⟨rs, pb, pt, led, rel⟩ := s
  obtain ⟨en, bp, safe, now⟩ := i
  dsimp at hR hE hB hP
  subst hR; subst hE; subst hB; subst hP
  constructor <;> intro hh <;>
    simp [loopStep, effectiveState, releasedSwitch, hh, setRelayState]

/-- Witness for C6: a 300 ms tap from RUN lands in OFF; a 1200 ms hold
from RUN lands in ACC after the transient OFF write and 500 ms settle. -/
theorem claim6_witness :
    ((loopStep
      { runState := .RUN, previousButtonState := true, pressTime := 0,
        led := { brightness := 255, fadeAmount := 5, tick := 0 },
        relays := setRelayState .RUN }
      { enabled := true, buttonPressed := false, safeToStart := true,
        now := 300 }).1.runState = SysState.OFF ∧
     (loopStep
      { runState := .RUN, previousButtonState := true, pressTime := 0,
        led := { brightness := 255, fadeAmount := 5, tick := 0 },
        relays := setRelayState .RUN }
      { enabled := true, buttonPressed := false, safeToStart := true,
        now := 300 }).2.relayWrites = [setRelayState .OFF] ∧
     (loopStep
      { runState := .RUN, previousButtonState := true, pressTime := 0,
        led := { brightness := 255, fadeAmount := 5, tick := 0 },
        relays := setRelayState .RUN }
      { enabled := true, buttonPressed := false, safeToStart := true,
        now := 300 }).2.settleDelayMs = 0) ∧
    ((loopStep
      { runState := .RUN, previousButtonState := true, pressTime := 0,
        led := { brightness := 255, fadeAmount := 5, tick := 0 },
        relays := setRelayState .RUN }
      { enabled := true, buttonPressed := false, safeToStart := true,
        now := 1200 }).1.runState = SysState.ACC ∧
     (loopStep
      { runState := .RUN, previousButtonState := true, pressTime := 0,
        led := { brightness := 255, fadeAmount := 5, tick := 0 },
        relays := setRelayState .RUN }
      { enabled := true, buttonPressed := false, safeToStart := true,
        now := 1200 }).2.relayWrites =
        [setRelayState .OFF, setRelayState .ACC] ∧
     (loopStep
      { runState := .RUN, previousButtonState := true, pressTime := 0,
        led := { brightness := 255, fadeAmount := 5, tick := 0 },
        relays := setRelayState .RUN }
      { enabled := true, buttonPressed := false, safeToStart := true,
        now := 1200 }).2.settleDelayMs = 500 ∧
     (loopStep
      { runState := .RUN, previousButtonState := true, pressTime := 0,
        led := { brightness := 255, fadeAmount := 5, tick := 0 },
        relays := setRelayState .RUN }
      { enabled := true, buttonPressed := false, safeToStart := true,
        now := 1200 }).1.relays = setRelayState .ACC) :=
  ⟨(claim6_run_release_tap_or_hold _ _ rfl rfl rfl rfl).1 (by decide),
   (claim6_run_release_tap_or_hold _ _ rfl rfl rfl rfl).2 (by decide)⟩

/-- C7: the NFC enablement gate returns true unconditionally whenever
the run state is outside DISABLED/OFF; in DISABLED or OFF it returns
true exactly when the read buffer matches some allow-list entry byte
for byte over the fixed 7-byte identifier length. -/
theorem claim7_nfc_gate (rs : SysState) (uid : List Nat) :
    ((rs ≠ SysState.DISABLED ∧ rs ≠ SysState.OFF) →
      systemEnabled rs uid = true) ∧
    ((rs = SysState.DISABLED ∨ rs = SysState.OFF) →
      (systemEnabled rs uid = true ↔
        ∃ known ∈ NFC_UIDS, ∀ j < 7, known.getD j 0 = uid.getD j 0)) := by
  constructor
  · intro h
    simp [systemEnabled, h.1, h.2]
  · intro h
    have hno : ¬(rs ≠ SysState.DISABLED ∧ rs ≠ SysState.OFF) := by
      rcases h with h | h <;> subst h <;> simp
    simp only [systemEnabled, if_neg hno, List.any_eq_true, checkUid,
      List.all_eq_true, List.mem_range, beq_iff_eq]

/-- Witness for C7: the gate is open in RUN with an empty buffer, and
in DISABLED the fob identifier (with its implicit trailing zeros)
opens the gate. -/
theorem claim7_witness :
    systemEnabled SysState.RUN [] = true ∧
    systemEnabled SysState.DISABLED [0x69, 0xAF, 0xEC, 0xC2, 0, 0, 0] = true :=
  ⟨(claim7_nfc_gate SysState.RUN []).1 (by decide),
   ((claim7_nfc_gate SysState.DISABLED [0x69, 0xAF, 0xEC, 0xC2, 0, 0, 0]).2
      (Or.inl rfl)).mpr ⟨[0x69, 0xAF, 0xEC, 0xC2, 0, 0, 0], by decide, by decide⟩⟩

/-- C8 counterexample: in a disabled cycle starting from the boot state
(already DISABLED) the run state does not change yet a relay write is
issued, refuting both directions of the claim; moreover an accepted
RUN-to-ACC transition issues two relay writes, not one. -/
theorem claim8_counterexample :
    (loopStep initState
      { enabled := false, buttonPressed := false, safeToStart := true,
        now := 0 }).1.runState = initState.runState ∧
    (loopStep initState
      { enabled := false, buttonPressed := false, safeToStart := true,
        now := 0 }).2.relayWrites ≠ [] ∧
    (loopStep
      { runState := .RUN, previousButtonState := true, pressTime := 0,
        led := { brightness := 255, fadeAmount := 5, tick := 0 },
        relays := setRelayState .RUN }
      { enabled := true, buttonPressed := false, safeToStart := true,
        now := 1200 }).1.runState ≠ SysState.RUN ∧
    (loopStep
      { runState := .RUN, previousButtonState := true, pressTime := 0,
        led := { brightness := 255, fadeAmount := 5, tick := 0 },
        relays := setRelayState .RUN }
      { enabled := true, buttonPressed := false, safeToStart := true,
        now := 1200 }).2.relayWrites.length = 2 := by
  decide

/-- C8 amended: in enabled cycles the relay driver is edge-driven — a
cycle that leaves RunState unchanged issues no relay write — but in
every disabled cycle the driver is invoked once (writing all-off)
whether or not RunState changed, and an accepted RUN-to-ACC
transition writes twice in its cycle. -/
theorem claim8_enabled_no_change_no_write (s : MachState) (i : CycleInput) :
    (i.enabled = true → (loopStep s i).1.runState = s.runState →
       (loopStep s i).2.relayWrites = []) ∧
    (i.enabled = false →
       (loopStep s i).2.relayWrites = [setRelayState .DISABLED]) := by
  obtain ⟨rs, pb, pt, led, rel⟩ := s
  obtain ⟨en, bp, safe, now⟩ := i
  cases en <;> cases bp <;> cases pb <;> cases rs <;>
    simp [loopStep, effectiveState, releasedSwitch] <;>
      split_ifs <;> simp_all

/-- Witness for C8's amended theorem: an enabled no-edge cycle in RUN
writes nothing; a disabled cycle writes the all-off pattern. -/
theorem claim8_witness :
    (loopStep
      { runState := .RUN, previousButtonState := false, pressTime := 0,
        led := { brightness := 255, fadeAmount := 5, tick := 0 },
        relays := setRelayState .RUN }
      { enabled := true, buttonPressed := false, safeToStart := true,
        now := 9000 }).2.relayWrites = [] ∧
    (loopStep
      { runState := .RUN, previousButtonState := false, pressTime := 0,
        led := { brightness := 255, fadeAmount := 5, tick := 0 },
        relays := setRelayState .RUN }
      { enabled := false, buttonPressed := false, safeToStart := true,
        now := 9000 }).2.relayWrites = [setRelayState .DISABLED] :=
  ⟨(claim8_enabled_no_change_no_write
      { runState := .RUN, previousButtonState := false, pressTime := 0,
        led := { brightness := 255, fadeAmount := 5, tick := 0 },
        relays := setRelayState .RUN }
      { enabled := true, buttonPressed := false, safeToStart := true,
        now := 9000 }).1 rfl (by decide),
   (claim8_enabled_no_change_no_write
      { runState := .RUN, previousButtonState := false, pressTime := 0,
        led := { brightness := 255, fadeAmount := 5, tick := 0 },
        relays := setRelayState .RUN }
      { enabled := false, buttonPressed := false, safeToStart := true,
        now := 9000 }).2 rfl⟩

theorem setLedBrigtness_inv (rs : SysState) (l : LedState)
    (h : LedInv l) : LedInv (setLedBrigtness rs l) := by
  obtain ⟨h0, h1, hf⟩ := h
  obtain ⟨b, f, t⟩ := l
  dsimp [LedInv] at h0 h1 hf ⊢
  cases rs <;> simp only [setLedBrigtness] <;>
    rcases hf with hf | hf <;> subst hf <;> omega

theorem ledTrace_inv (states : List SysState) (l : LedState)
    (h : LedInv l) : LedInv (ledTrace l states) := by
  induction states generalizing l with
  | nil => exact h
  | cons rs rest ih => exact ih (setLedBrigtness rs l) (setLedBrigtness_inv rs l h)

/-- C9: starting from brightness 0, fadeAmount 5, tick 0, after any
sequence of LED-brightness updates — one per cycle, under an arbitrary
sequence of run states, with no reset on state entry — brightness
stays within 0..255 and fadeAmount is always +5 or -5. -/
theorem claim9_led_animation_bounds (states : List SysState) :
    0 ≤ (ledTrace { brightness := 0, fadeAmount := 5, tick := 0 } states).brightness ∧
    (ledTrace { brightness := 0, fadeAmount := 5, tick := 0 } states).brightness ≤ 255 ∧
    ((ledTrace { brightness := 0, fadeAmount := 5, tick := 0 } states).fadeAmount = 5 ∨
     (ledTrace { brightness := 0, fadeAmount := 5, tick := 0 } states).fadeAmount = -5) :=
  ledTrace_inv states { brightness := 0, fadeAmount := 5, tick := 0 }
    ⟨by decide, by decide, Or.inl rfl⟩

/-- C10: the DISABLED arm of the released-edge switch is dead code: the
state the switch ever receives (the state after the enabled branch's
forced DISABLED-to-OFF move) is never DISABLED, and replacing that arm
with different behavior (loopStepAlt) leaves the loop body extensionally
unchanged on every state and input. -/
theorem claim10_disabled_arm_unreachable :
    (∀ s : MachState, effectiveState s ≠ SysState.DISABLED) ∧
    (∀ (s : MachState) (i : CycleInput), loopStep s i = loopStepAlt s i) := by
  constructor
  · intro s
    unfold effectiveState
    split_ifs with h
    · simp
    · exact h
  · intro s i
    obtain ⟨rs, pb, pt, led, rel⟩ := s
    cases rs <;> rfl

end PushStart
